import Mathlib

/-!
Shallow embedding of the GL queue runner (ext/native/thin3d/GLQueueRunner.cpp):
a deferred command executor that replays pre-recorded init-step batches and
render-step batches against a stateful graphics device.

Modelling conventions:
- Every issued device call (and every CPU-side payload release) is recorded as
  one element of a trace of type GLCall, in program order.
- Machine integers (GLint, GLuint) are modelled as Int / Nat; the coordinate
  arithmetic involved (the Y flip targetHeight - y - height) is exact on the
  integer inputs the claims are about, so no overflow modelling is needed.
- Device outcomes that the code reads back (compile status, link status,
  generated names, resolved uniform locations) are external inputs; they are
  modelled as oracle fields carried on the steps or on the interpreter state.
- C strings (shader sources, uniform names) are opaque to the interpreter;
  uniform names are modelled as abstract identifiers of type Nat.
- The desktop compilation branch is modelled (USING_GLES2 not defined), which
  is the branch the cited source lines belong to.
-/

/-- Standard OpenGL enum value GL_TEXTURE_2D. -/
def GL_TEXTURE_2D : Nat := 0x0DE1

/-- Standard OpenGL enum value GL_RENDERBUFFER. -/
def GL_RENDERBUFFER : Nat := 0x8D41

/-- Standard OpenGL enum value GL_ARRAY_BUFFER. -/
def GL_ARRAY_BUFFER : Nat := 0x8892

/-- Standard OpenGL enum value GL_ELEMENT_ARRAY_BUFFER. -/
def GL_ELEMENT_ARRAY_BUFFER : Nat := 0x8893

/-- Standard OpenGL enum value GL_TEXTURE0 (33984), as a GLint. -/
def GL_TEXTURE0 : Int := 0x84C0

/-- Standard OpenGL enum value GL_SCISSOR_TEST. -/
def GL_SCISSOR_TEST : Nat := 0x0C11

/-- Standard OpenGL enum value GL_DEPTH_TEST. -/
def GL_DEPTH_TEST : Nat := 0x0B71

/-- Standard OpenGL enum value GL_BLEND. -/
def GL_BLEND : Nat := 0x0BE2

/-- Standard OpenGL enum value GL_STENCIL_TEST. -/
def GL_STENCIL_TEST : Nat := 0x0B90

/-- Standard OpenGL enum value GL_CULL_FACE. -/
def GL_CULL_FACE : Nat := 0x0B44

/-- Standard OpenGL enum value GL_DITHER. -/
def GL_DITHER : Nat := 0x0BD0

/-- Standard OpenGL enum value GL_COLOR_BUFFER_BIT. -/
def GL_COLOR_BUFFER_BIT : Nat := 0x4000

/-- Standard OpenGL enum value GL_DEPTH_BUFFER_BIT. -/
def GL_DEPTH_BUFFER_BIT : Nat := 0x0100

/-- Standard OpenGL enum value GL_STENCIL_BUFFER_BIT. -/
def GL_STENCIL_BUFFER_BIT : Nat := 0x0400

/-- Standard OpenGL enum value GL_FRAGMENT_SHADER. -/
def GL_FRAGMENT_SHADER : Nat := 0x8B30

/-- Standard OpenGL enum value GL_TEXTURE_WRAP_S. -/
def GL_TEXTURE_WRAP_S : Nat := 0x2802

/-- Standard OpenGL enum value GL_TEXTURE_WRAP_T. -/
def GL_TEXTURE_WRAP_T : Nat := 0x2803

/-- Standard OpenGL enum value GL_TEXTURE_MAG_FILTER. -/
def GL_TEXTURE_MAG_FILTER : Nat := 0x2800

/-- Standard OpenGL enum value GL_TEXTURE_MIN_FILTER. -/
def GL_TEXTURE_MIN_FILTER : Nat := 0x2801

/-- Standard OpenGL enum value GL_CLAMP_TO_EDGE. -/
def GL_CLAMP_TO_EDGE : Nat := 0x812F

/-- Standard OpenGL enum value GL_TEXTURE_MAX_ANISOTROPY_EXT. -/
def GL_TEXTURE_MAX_ANISOTROPY_EXT : Nat := 0x84FE

/-- One issued device (OpenGL) call, or one CPU-side payload release, recorded
in program order. A few calls whose parameters are floating-point data the
claims never inspect (clear depth, depth range, blend color) are recorded as
parameterless events. -/
inductive GLCall where
  | genTextures (n : Nat)
  | bindTexture (target handle : Nat)
  | genBuffers (n : Nat)
  | bindBuffer (target handle : Nat)
  | bufferData (target size usage : Nat)
  | bufferSubData (target offset size : Nat)
  | freePayload
  | createShaderCall (stage : Nat)
  | shaderSource
  | compileShader
  | getShaderInfoLog
  | deleteShader (handle : Nat)
  | logLine
  | createProgramCall
  | attachShader (programHandle shaderHandle : Nat)
  | bindAttribLocation (programHandle location attrib : Nat)
  | bindFragDataLocationIndexed (programHandle colorNumber index : Nat)
  | bindFragDataLocation (programHandle colorNumber : Nat)
  | linkProgram (handle : Nat)
  | getProgramInfoLog
  | useProgram (handle : Nat)
  | getUniformLocation (programHandle name : Nat)
  | uniform1i (loc : Int) (value : Int)
  | enable (cap : Nat)
  | disable (cap : Nat)
  | bindVertexArray (handle : Nat)
  | depthMask (write : Bool)
  | depthFunc (f : Nat)
  | blendEquationSeparate (funcColor funcAlpha : Nat)
  | blendFuncSeparate (srcColor dstColor srcAlpha dstAlpha : Nat)
  | colorMask (r g b a : Bool)
  | clearColor (color : Nat)
  | clearDepth
  | clearStencil (s : Nat)
  | clear (mask : Nat)
  | blendColor
  | viewport (x y w h : Int)
  | depthRange
  | scissor (x y w h : Int)
  | uniformF (loc : Int) (count : Nat)
  | uniformI (loc : Int) (count : Nat)
  | uniformMatrix (loc : Int)
  | stencilFuncCall (func ref compareMask : Nat)
  | stencilOpCall (sFail zFail pass : Nat)
  | stencilMask (writeMask : Nat)
  | activeTexture (unit : Int)
  | enableVertexAttribArray (i : Nat)
  | disableVertexAttribArray (i : Nat)
  | vertexAttribPointer (location count ty : Nat) (normalized : Bool) (stride offset : Nat)
  | generateMipmap (target : Nat)
  | frontFaceCall (mode : Nat)
  | cullFaceCall (mode : Nat)
  | drawArrays (mode : Nat) (first count : Nat)
  | drawElements (mode count indexType : Nat)
  | texParameteri (target pname param : Nat)
  | texParameterf (target pname : Nat)
  | texImage2D (target level internalFormat : Nat) (width height : Int) (format ty : Nat)
  | copyImageSubData (variant srcName srcTarget srcLevel : Nat) (srcX srcY srcZ : Int)
      (dstName dstTarget dstLevel : Nat) (dstX dstY dstZ : Int) (srcWidth srcHeight srcDepth : Int)

/-- Texture record (GLRTexture): bind target plus device handle. -/
structure GLRTexture where
  target : Nat
  texture : Nat
  deriving DecidableEq, Repr

/-- Buffer record (GLRBuffer): bind target plus device handle. -/
structure GLRBuffer where
  target : Nat
  buffer : Nat
  deriving DecidableEq, Repr

/-- Shader record (GLRShader): device handle plus validity flag. -/
structure GLRShader where
  shader : Nat
  valid : Bool
  deriving DecidableEq, Repr

/-- Program record (GLRProgram): device handle, pre-link attribute semantic
bindings (location, attrib-name id), post-link uniform-name queries whose
resolved locations are written into queryResults, and one-time integer
initializer entries (index into queryResults, value). The render-time
GetUniformLoc helper is declared in GLRenderManager.h (not under src); it is
modelled abstractly as a map from uniform-name identifiers to locations. -/
structure GLRProgram where
  program : Nat
  semantics : List (Nat × Nat)
  queries : List Nat
  queryResults : List Int
  inits : List (Nat × Int)
  getUniformLoc : Nat → Int

/-- Input-layout attribute entry (location, component count, type, normalize
flag, stride, byte offset). -/
structure GLRInputLayoutEntry where
  location : Nat
  count : Nat
  ty : Nat
  normalized : Bool
  stride : Nat
  offset : Nat
  deriving DecidableEq, Repr

/-- Input-layout record (GLRInputLayout): bitmask of enabled attribute slots
plus the ordered attribute entries. -/
structure GLRInputLayout where
  semanticsMask : Nat
  entries : List GLRInputLayoutEntry
  deriving DecidableEq, Repr

/-- Framebuffer record (GLRFramebuffer): dimensions plus color/depth
attachment textures. -/
structure GLRFramebuffer where
  width : Int
  height : Int
  color : GLRTexture
  depth : GLRTexture
  deriving DecidableEq, Repr

/-- Fixed refill batch size of the texture name cache
(TEXCACHE_NAME_CACHE_SIZE). -/
def TEXCACHE_NAME_CACHE_SIZE : Nat := 16

/-- One init step (GLRInitStep). Each case carries the index of the resource
record it populates plus its payload. Device outcomes the code reads back
(compile status, link status) are external inputs, carried as oracle fields
on the step. The CREATE_INPUT_LAYOUT, CREATE_FRAMEBUFFER and TEXTURE_SUBDATA
cases of the source are empty bodies (no device call); TEXTURE_IMAGE is
included for completeness. -/
inductive GLRInitStep where
  | createTexture (texId target : Nat)
  | createBuffer (bufId target size usage : Nat)
  | bufferSubdata (bufId offset size : Nat) (deleteData : Bool)
  | createProgram (progId : Nat) (shaderIds : List Nat) (supportDualSource linkOk : Bool)
  | createShader (shaderId stage : Nat) (compileOk : Bool)
  | createInputLayout (layoutId : Nat)
  | createFramebuffer (fbId : Nat)
  | textureSubdata (texId : Nat)
  | textureImage (texId level internalFormat : Nat) (width height : Int) (format ty : Nat)
      (linearFilter : Bool)

/-- State threaded through the init-step interpreter: the externally owned
resource records (addressed by index), a device-side fresh-name supply,
a device capability flag (gl_extensions.VersionGEThan(3, 3, 0)), and the
device's uniform-location resolution oracle (glGetUniformLocation). -/
structure InitState where
  textures : Nat → GLRTexture
  buffers : Nat → GLRBuffer
  shaders : Nat → GLRShader
  programs : Nat → GLRProgram
  nextName : Nat
  versionGE330 : Bool
  uniformLocOracle : Nat → Int

/-- Executes one init step: returns the updated state and the trace of device
calls and payload releases it issues, in program order. Translated case by
case from GLQueueRunner::RunInitSteps. -/
def runInitStep (s : InitState) (step : GLRInitStep) : InitState × List GLCall :=
  match step with
  | .createTexture texId target =>
      let handle := s.nextName
      let tex : GLRTexture := { target := target, texture := handle }
      ({ s with textures := fun i => if i = texId then tex else s.textures i,
                nextName := s.nextName + 1 },
       [.genTextures 1, .bindTexture target handle])
  | .createBuffer bufId target size usage =>
      let handle := s.nextName
      let buf : GLRBuffer := { target := target, buffer := handle }
      ({ s with buffers := fun i => if i = bufId then buf else s.buffers i,
                nextName := s.nextName + 1 },
       [.genBuffers 1, .bindBuffer target handle, .bufferData target size usage])
  | .bufferSubdata bufId offset size deleteData =>
      (s, [.bindBuffer GL_ARRAY_BUFFER (s.buffers bufId).buffer,
           .bufferSubData GL_ARRAY_BUFFER offset size] ++
          (if deleteData then [.freePayload] else []))
  | .createProgram progId shaderIds supportDualSource linkOk =>
      let handle := s.nextName
      let p1 := { s.programs progId with program := handle }
      let evAttach := shaderIds.map fun i => GLCall.attachShader handle (s.shaders i).shader
      let evSem := p1.semantics.map fun q => GLCall.bindAttribLocation handle q.1 q.2
      let evFrag :=
        if supportDualSource then
          [GLCall.bindFragDataLocationIndexed handle 0 0,
           GLCall.bindFragDataLocationIndexed handle 0 1]
        else if s.versionGE330 then [GLCall.bindFragDataLocation handle 0]
        else []
      let evHead := [GLCall.createProgramCall] ++ evAttach ++ evSem ++ evFrag ++
        [GLCall.linkProgram handle]
      if !linkOk then
        -- Link failure: retrieve and log the diagnostic, then fall through to
        -- the next step of the batch (the source does break, not return).
        ({ s with programs := fun i => if i = progId then p1 else s.programs i,
                  nextName := s.nextName + 1 },
         evHead ++ [.getProgramInfoLog, .logLine])
      else
        let results := p1.queries.map s.uniformLocOracle
        let p2 := { p1 with queryResults := results }
        let evQuery := p1.queries.map fun nm => GLCall.getUniformLocation handle nm
        let evInit := p2.inits.flatMap fun ini =>
          let uniform := results.getD ini.1 (-1)
          if uniform ≠ -1 then [GLCall.uniform1i uniform ini.2] else []
        ({ s with programs := fun i => if i = progId then p2 else s.programs i,
                  nextName := s.nextName + 1 },
         evHead ++ [.useProgram handle] ++ evQuery ++ evInit)
  | .createShader shaderId stage compileOk =>
      let handle := s.nextName
      -- glCreateShader, then step.create_shader.shader->shader = shader.
      let sh : GLRShader := { s.shaders shaderId with shader := handle }
      -- glShaderSource, delete[] code, glCompileShader, glGetShaderiv.
      let evHead := [GLCall.createShaderCall stage, GLCall.shaderSource, GLCall.freePayload,
        GLCall.compileShader]
      -- Failure branch (source lines 137-147): info log, delete the device
      -- shader, log the diagnostic, write valid = false.
      let step2 :=
        if !compileOk then
          ({ sh with valid := false }, [GLCall.getShaderInfoLog, GLCall.deleteShader handle,
            GLCall.logLine])
        else (sh, ([] : List GLCall))
      -- Source line 148 then writes valid = true unconditionally: it is not
      -- under an else, so it also overwrites the failure branch's false.
      let shFinal := { step2.1 with valid := true }
      ({ s with shaders := fun i => if i = shaderId then shFinal else s.shaders i,
                nextName := s.nextName + 1 },
       evHead ++ step2.2)
  | .createInputLayout _ => (s, [])
  | .createFramebuffer _ => (s, [])
  | .textureSubdata _ => (s, [])
  | .textureImage texId level internalFormat width height format ty linearFilter =>
      let filter := if linearFilter then 0x2601 else 0x2600
      (s, [.texImage2D (s.textures texId).target level internalFormat width height format ty,
           .freePayload,
           .texParameteri GL_TEXTURE_2D GL_TEXTURE_WRAP_S GL_CLAMP_TO_EDGE,
           .texParameteri GL_TEXTURE_2D GL_TEXTURE_WRAP_T GL_CLAMP_TO_EDGE,
           .texParameteri GL_TEXTURE_2D GL_TEXTURE_MAG_FILTER filter,
           .texParameteri GL_TEXTURE_2D GL_TEXTURE_MIN_FILTER filter])

/-- Executes an ordered init batch front to back (GLQueueRunner::RunInitSteps):
one pass, no reordering, no aborting between steps. -/
def RunInitSteps (s : InitState) : List GLRInitStep → InitState × List GLCall
  | [] => (s, [])
  | step :: rest =>
      let r1 := runInitStep s step
      let r2 := RunInitSteps r1.1 rest
      (r2.1, r1.2 ++ r2.2)

/-- Persistent interpreter state read by the render-pass interpreter.
curFramebuffer is declared in GLQueueRunner.h (not under src) with a null
initializer; within GLQueueRunner.cpp it is read by the VIEWPORT and SCISSOR
cases and written nowhere: in particular
GLQueueRunner::PerformBindFramebufferAsRenderTarget updates only curFBWidth
and curFBHeight. -/
structure RunnerState where
  curFramebuffer : Option GLRFramebuffer
  curFBWidth : Int
  curFBHeight : Int
  targetWidth : Int
  targetHeight : Int
  globalVAO : Nat
  deriving DecidableEq, Repr

/-- Per-pass shadow state: bound program, active texture unit variable, and
enabled vertex-attribute mask. -/
structure Shadow where
  curProgram : Option GLRProgram
  activeTexture : Int
  attrMask : Nat

/-- One render command (GLRRenderCommand), one case per device state change or
draw. Uniform commands carry an optional precomputed location (a null pointer
reads as -1) and an optional name id resolved against the bound program. -/
inductive GLRRenderCommand where
  | depth (enabled write : Bool) (func : Nat)
  | blend (enabled : Bool) (funcColor funcAlpha srcColor dstColor srcAlpha dstAlpha mask : Nat)
  | clear (clearMask clearColor clearStencil : Nat)
  | blendColor
  | viewport (x y w h : Int)
  | scissor (x y w h : Int)
  | uniform4F (loc : Option Int) (name : Option Nat) (count : Nat)
  | uniform4I (loc : Option Int) (name : Option Nat) (count : Nat)
  | uniformMatrix4 (loc : Option Int) (name : Option Nat)
  | stencilFunc (enabled : Bool) (func ref compareMask : Nat)
  | stencilOp (sFail zFail pass writeMask : Nat)
  | bindTexture (slot : Int) (texture : Option GLRTexture)
  | bindProgram (program : GLRProgram)
  | bindInputLayout (inputLayout : GLRInputLayout) (offset : Nat)
  | bindVertexBuffer (buffer : Option GLRBuffer)
  | bindIndexBuffer (buffer : Option GLRBuffer)
  | genMips
  | draw (mode first count : Nat)
  | drawIndexed (mode count indexType indices instances : Nat)
  | textureSampler (wrapS wrapT magFilter minFilter : Nat) (anisotropy : Int)
  | raster (cullEnable : Bool) (frontFace cullFace : Nat) (ditherEnable : Bool)

/-- Resolves a uniform command's location: a precomputed location if present
(null reads as -1), overridden by a by-name lookup against the currently
bound program when a name is given. The source dereferences a null
curProgram in the by-name case; that undefined behavior is modelled as an
unresolved location. -/
def resolveUniformLoc (sh : Shadow) (loc : Option Int) (name : Option Nat) : Int :=
  match name with
  | some nm =>
      match sh.curProgram with
      | some p => p.getUniformLoc nm
      | none => -1
  | none => loc.getD (-1)

/-- Dispatches one render command against the shadow state, returning the new
shadow state and the issued device calls. Translated case by case from the
command loop of GLQueueRunner::PerformRenderPass. -/
def runCommand (rs : RunnerState) (sh : Shadow) (c : GLRRenderCommand) :
    Shadow × List GLCall :=
  match c with
  | .depth enabled write func =>
      (sh, if enabled then [.enable GL_DEPTH_TEST, .depthMask write, .depthFunc func]
           else [.disable GL_DEPTH_TEST])
  | .blend enabled funcColor funcAlpha srcColor dstColor srcAlpha dstAlpha mask =>
      (sh, (if enabled then
              [.enable GL_BLEND, .blendEquationSeparate funcColor funcAlpha,
               .blendFuncSeparate srcColor dstColor srcAlpha dstAlpha]
            else [.disable GL_BLEND]) ++
           [.colorMask (mask.testBit 0) (mask.testBit 1) (mask.testBit 2) (mask.testBit 3)])
  | .clear clearMask clearColor clearStencil =>
      (sh, [.disable GL_SCISSOR_TEST, .colorMask true true true true] ++
           (if clearMask &&& GL_COLOR_BUFFER_BIT ≠ 0 then [.clearColor clearColor] else []) ++
           (if clearMask &&& GL_DEPTH_BUFFER_BIT ≠ 0 then [.clearDepth] else []) ++
           (if clearMask &&& GL_STENCIL_BUFFER_BIT ≠ 0 then [.clearStencil clearStencil] else []) ++
           [.clear clearMask, .enable GL_SCISSOR_TEST])
  | .blendColor => (sh, [.blendColor])
  | .viewport x y w h =>
      let y2 := match rs.curFramebuffer with
        | none => rs.curFBHeight - y - h
        | some _ => y
      (sh, [.viewport x y2 w h, .depthRange])
  | .scissor x y w h =>
      let y2 := match rs.curFramebuffer with
        | none => rs.curFBHeight - y - h
        | some _ => y
      (sh, [.scissor x y2 w h])
  | .uniform4F loc name count =>
      let l := resolveUniformLoc sh loc name
      (sh, if 0 ≤ l then
             match count with
             | 1 | 2 | 3 | 4 => [.uniformF l count]
             | _ => []
           else [])
  | .uniform4I loc name count =>
      let l := resolveUniformLoc sh loc name
      (sh, if 0 ≤ l then
             match count with
             | 1 | 2 | 3 | 4 => [.uniformI l count]
             | _ => []
           else [])
  | .uniformMatrix4 loc name =>
      let l := resolveUniformLoc sh loc name
      (sh, if 0 ≤ l then [.uniformMatrix l] else [])
  | .stencilFunc enabled func ref compareMask =>
      (sh, if enabled then [.enable GL_STENCIL_TEST, .stencilFuncCall func ref compareMask]
           else [.disable GL_STENCIL_TEST])
  | .stencilOp sFail zFail pass writeMask =>
      (sh, [.stencilOpCall sFail zFail pass, .stencilMask writeMask])
  | .bindTexture slot texture =>
      let step1 :=
        if slot ≠ sh.activeTexture then
          ({ sh with activeTexture := slot }, [GLCall.activeTexture (GL_TEXTURE0 + slot)])
        else (sh, ([] : List GLCall))
      let ev2 := match texture with
        | some t => [GLCall.bindTexture t.target t.texture]
        | none => [GLCall.bindTexture GL_TEXTURE_2D 0]
      (step1.1, step1.2 ++ ev2)
  | .bindProgram program =>
      ({ sh with curProgram := some program }, [.useProgram program.program])
  | .bindInputLayout inputLayout offset =>
      let enableMask := Nat.ldiff inputLayout.semanticsMask sh.attrMask
      let disableMask := Nat.ldiff sh.attrMask inputLayout.semanticsMask
      let evToggle := (List.range 7).flatMap fun i =>
        (if enableMask.testBit i then [GLCall.enableVertexAttribArray i] else []) ++
        (if disableMask.testBit i then [GLCall.disableVertexAttribArray i] else [])
      let evEntries := inputLayout.entries.map fun e =>
        GLCall.vertexAttribPointer e.location e.count e.ty e.normalized e.stride
          (offset + e.offset)
      ({ sh with attrMask := inputLayout.semanticsMask }, evToggle ++ evEntries)
  | .bindVertexBuffer buffer =>
      (sh, [.bindBuffer GL_ARRAY_BUFFER (match buffer with
            | some b => b.buffer
            | none => 0)])
  | .bindIndexBuffer buffer =>
      (sh, [.bindBuffer GL_ELEMENT_ARRAY_BUFFER (match buffer with
            | some b => b.buffer
            | none => 0)])
  | .genMips => (sh, [.generateMipmap GL_TEXTURE_2D])
  | .draw mode first count => (sh, [.drawArrays mode first count])
  | .drawIndexed mode count indexType _ instances =>
      (sh, if instances = 1 then [.drawElements mode count indexType] else [])
  | .textureSampler wrapS wrapT magFilter minFilter anisotropy =>
      (sh, [.texParameteri GL_TEXTURE_2D GL_TEXTURE_WRAP_S wrapS,
            .texParameteri GL_TEXTURE_2D GL_TEXTURE_WRAP_T wrapT,
            .texParameteri GL_TEXTURE_2D GL_TEXTURE_MAG_FILTER magFilter,
            .texParameteri GL_TEXTURE_2D GL_TEXTURE_MIN_FILTER minFilter] ++
           (if anisotropy ≠ 0 then [.texParameterf GL_TEXTURE_2D GL_TEXTURE_MAX_ANISOTROPY_EXT]
            else []))
  | .raster cullEnable frontFace cullFace ditherEnable =>
      (sh, (if cullEnable then [.enable GL_CULL_FACE, .frontFaceCall frontFace,
              .cullFaceCall cullFace]
            else [.disable GL_CULL_FACE]) ++
           (if ditherEnable then [.enable GL_DITHER] else [.disable GL_DITHER]))

/-- Runs a command list front to back, threading the shadow state and
concatenating the issued calls. -/
def runCommands (rs : RunnerState) (sh : Shadow) :
    List GLRRenderCommand → Shadow × List GLCall
  | [] => (sh, [])
  | c :: cs =>
      let r1 := runCommand rs sh c
      let r2 := runCommands rs r1.1 cs
      (r2.1, r1.2 ++ r2.2)

/-- A render-pass step: optional target framebuffer (absent means the default
backbuffer target) plus the ordered command list. -/
structure GLRStepRender where
  framebuffer : Option GLRFramebuffer
  commands : List GLRRenderCommand

/-- Shadow state at the start of every pass: no bound program, active texture
variable initialized to the raw enum GL_TEXTURE0, attribute mask 0. -/
def initialShadow : Shadow :=
  { curProgram := none, activeTexture := GL_TEXTURE0, attrMask := 0 }

/-- GLQueueRunner::PerformBindFramebufferAsRenderTarget: records the pass
target's dimensions. Faithful to the source, it does not write
curFramebuffer. -/
def PerformBindFramebufferAsRenderTarget (rs : RunnerState)
    (fb : Option GLRFramebuffer) : RunnerState :=
  match fb with
  | some f => { rs with curFBWidth := f.width, curFBHeight := f.height }
  | none => { rs with curFBWidth := rs.targetWidth, curFBHeight := rs.targetHeight }

/-- End-of-pass cleanup: disable every still-enabled attribute slot, restore
texture unit 0 if the shadow variable moved off GL_TEXTURE0, unbind buffers
and the vertex-array container, disable scissoring. -/
def passTail (sh : Shadow) : List GLCall :=
  ((List.range 7).flatMap fun i =>
    if sh.attrMask.testBit i then [GLCall.disableVertexAttribArray i] else []) ++
  (if sh.activeTexture ≠ GL_TEXTURE0 then [GLCall.activeTexture GL_TEXTURE0] else []) ++
  [.bindBuffer GL_ARRAY_BUFFER 0, .bindBuffer GL_ELEMENT_ARRAY_BUFFER 0,
   .bindVertexArray 0, .disable GL_SCISSOR_TEST]

/-- GLQueueRunner::PerformRenderPass: an empty command list returns before any
device call; otherwise bind the pass target, set up scissoring and the shared
vertex-array container, run the commands against fresh shadow state, then
clean up. -/
def PerformRenderPass (rs : RunnerState) (step : GLRStepRender) :
    RunnerState × List GLCall :=
  if step.commands.isEmpty then (rs, [])
  else
    let rs2 := PerformBindFramebufferAsRenderTarget rs step.framebuffer
    let evHead := [GLCall.enable GL_SCISSOR_TEST, GLCall.bindVertexArray rs2.globalVAO,
      GLCall.bindBuffer GL_ARRAY_BUFFER 0, GLCall.bindBuffer GL_ELEMENT_ARRAY_BUFFER 0]
    let body := runCommands rs2 initialShadow step.commands
    (rs2, evHead ++ body.2 ++ passTail body.1)

/-- Source/destination region data of a Copy step: source rectangle. -/
structure GLRect2D where
  x : Int
  y : Int
  w : Int
  h : Int
  deriving DecidableEq, Repr

/-- Destination position of a Copy step. -/
structure GLOffset2D where
  x : Int
  y : Int
  deriving DecidableEq, Repr

/-- A Copy render step: source and destination framebuffer records, the
source rectangle, the destination position, and the aspect selector
bitmask. -/
structure GLRStepCopy where
  src : GLRFramebuffer
  dst : GLRFramebuffer
  srcRect : GLRect2D
  dstPos : GLOffset2D
  aspectMask : Nat
  deriving DecidableEq, Repr

/-- Optional device capabilities consulted by the copy path (gl_extensions). -/
structure GLCaps where
  ARB_copy_image : Bool
  NV_copy_image : Bool
  deriving DecidableEq, Repr

/-- GLQueueRunner::PerformCopy, desktop branch. Faithful to the source, both
local framebuffer variables are initialized from the step's src field
(source line 491 reads step.copy.src for dst as well), and the depth aspect
additionally takes its destination handle from src. An aspect other than the
two recognized bits leaves the zero-initialized handles. The copy is issued
through the ARB path, else the NV path, else not at all. -/
def PerformCopy (caps : GLCaps) (step : GLRStepCopy) : List GLCall :=
  let src := step.src
  let dst := step.src
  let sel : Nat × Nat × Nat :=
    if step.aspectMask = GL_COLOR_BUFFER_BIT then
      (src.color.texture, dst.color.texture, GL_TEXTURE_2D)
    else if step.aspectMask = GL_DEPTH_BUFFER_BIT then
      (src.depth.texture, src.depth.texture, GL_RENDERBUFFER)
    else (0, 0, GL_TEXTURE_2D)
  if caps.ARB_copy_image then
    [.copyImageSubData 0 sel.1 sel.2.2 0 step.srcRect.x step.srcRect.y 0
      sel.2.1 sel.2.2 0 step.dstPos.x step.dstPos.y 0 step.srcRect.w step.srcRect.h 1]
  else if caps.NV_copy_image then
    [.copyImageSubData 1 sel.1 sel.2.2 0 step.srcRect.x step.srcRect.y 0
      sel.2.1 sel.2.2 0 step.dstPos.x step.dstPos.y 0 step.srcRect.w step.srcRect.h 1]
  else []

/-- Destination texture name of a region-copy device call, if the call is
one. -/
def dstNameOfCall : GLCall → Option Nat
  | .copyImageSubData _ _ _ _ _ _ _ dstName _ _ _ _ _ _ _ _ => some dstName
  | _ => none

/-- State of the texture name allocator: the pool of pre-generated unused
handles (nameCache), the device-side fresh-name supply, and a counter of
glGenTextures batch requests issued. -/
structure NameAllocState where
  nameCache : List Nat
  nextName : Nat
  genTextureCalls : Nat
  deriving DecidableEq, Repr

/-- Device model of one glGenTextures batch: n distinct fresh names starting
at the supply counter d. -/
def genNames : Nat → Nat → List Nat
  | 0, _ => []
  | n + 1, d => d :: genNames n (d + 1)

/-- GLQueueRunner::AllocTextureName: refill the pool with one fixed-size batch
of 16 fresh names when it is empty, then remove and return the pool's last
element (back/pop_back). The refill guarantees the pool is nonempty at the
removal, so the default value of the last-element lookup is never used. -/
def AllocTextureName (s : NameAllocState) : Nat × NameAllocState :=
  let s2 :=
    if s.nameCache.isEmpty then
      { nameCache := genNames TEXCACHE_NAME_CACHE_SIZE s.nextName,
        nextName := s.nextName + TEXCACHE_NAME_CACHE_SIZE,
        genTextureCalls := s.genTextureCalls + 1 }
    else s
  let name := s2.nameCache.getLast?.getD 0
  (name, { s2 with nameCache := s2.nameCache.dropLast })

/-- A continuous sequence of n allocations, collecting the returned names in
order. -/
def allocMany : Nat → NameAllocState → List Nat × NameAllocState
  | 0, s => ([], s)
  | n + 1, s =>
      let r := AllocTextureName s
      let rest := allocMany n r.2
      (r.1 :: rest.1, rest.2)

/-- Recognizes a glCompileShader call. -/
def isCompileCall : GLCall → Bool
  | .compileShader => true
  | _ => false

/-- Recognizes a glBufferSubData call. -/
def isBufferSubDataCall : GLCall → Bool
  | .bufferSubData _ _ _ => true
  | _ => false

/-- Recognizes a CPU-side payload release. -/
def isFreePayloadCall : GLCall → Bool
  | .freePayload => true
  | _ => false

/-- Recognizes a glActiveTexture call. -/
def isActiveTextureCall : GLCall → Bool
  | .activeTexture _ => true
  | _ => false

/-- Recognizes a glBindTexture call. -/
def isBindTextureCall : GLCall → Bool
  | .bindTexture _ _ => true
  | _ => false

/-- Recognizes a glViewport call carrying the given rectangle. -/
def isViewportCall (x y w h : Int) : GLCall → Bool
  | .viewport a b c d => x == a && y == b && w == c && h == d
  | _ => false

/-- Recognizes a glScissor call carrying the given rectangle. -/
def isScissorCall (x y w h : Int) : GLCall → Bool
  | .scissor a b c d => x == a && y == b && w == c && h == d
  | _ => false

/-- Recognizes a glDrawElements call (the indexed draw). -/
def isDrawElementsCall : GLCall → Bool
  | .drawElements _ _ _ => true
  | _ => false

/-- Recognizes an indexed-draw command whose requested instance count is 1. -/
def isSingleInstanceIndexedDraw : GLRRenderCommand → Bool
  | .drawIndexed _ _ _ _ instances => instances == 1
  | _ => false

/-- Init-state fixture: zeroed resource records, fresh-name supply starting at
1, device reporting no GL 3.3 support and resolving no uniform. -/
def initState0 : InitState :=
  { textures := fun _ => { target := 0, texture := 0 }
  , buffers := fun _ => { target := 0, buffer := 0 }
  , shaders := fun _ => { shader := 0, valid := false }
  , programs := fun _ =>
      { program := 0, semantics := [], queries := [], queryResults := [], inits := []
      , getUniformLoc := fun _ => -1 }
  , nextName := 1
  , versionGE330 := false
  , uniformLocOracle := fun _ => -1 }

/-- Init batch fixture: a shader whose compile fails, then a program whose
link fails, then a shader whose compile succeeds. -/
def initBatch1 : List GLRInitStep :=
  [ .createShader 0 GL_FRAGMENT_SHADER false
  , .createProgram 0 [0] false false
  , .createShader 1 GL_FRAGMENT_SHADER true ]

/-- Runner-state fixture: startup values (curFramebuffer null as initialized
in the header), default target of size 100 times 200. -/
def rs0 : RunnerState :=
  { curFramebuffer := none, curFBWidth := 0, curFBHeight := 0,
    targetWidth := 100, targetHeight := 200, globalVAO := 1 }

/-- Offscreen framebuffer fixture of height 200. -/
def fb200 : GLRFramebuffer :=
  { width := 100, height := 200,
    color := { target := GL_TEXTURE_2D, texture := 7 },
    depth := { target := GL_TEXTURE_2D, texture := 8 } }

/-- Texture fixture. -/
def tex0 : GLRTexture := { target := GL_TEXTURE_2D, texture := 5 }

/-- Pass fixture: default (backbuffer) target, one viewport command with the
claimed input rectangle x=0, y=10, w=100, h=50. -/
def vpPassDefault : GLRStepRender :=
  { framebuffer := none, commands := [GLRRenderCommand.viewport 0 10 100 50] }

/-- Pass fixture: offscreen target of height 200, same viewport command. -/
def vpPassOffscreen : GLRStepRender :=
  { framebuffer := some fb200, commands := [GLRRenderCommand.viewport 0 10 100 50] }

/-- Pass fixture: offscreen target of height 200, one scissor command. -/
def scPassOffscreen : GLRStepRender :=
  { framebuffer := some fb200, commands := [GLRRenderCommand.scissor 0 10 100 50] }

/-- Pass fixture: empty command list. -/
def emptyPass : GLRStepRender := { framebuffer := none, commands := [] }

/-- Shadow-state fixture with enabled-attribute mask 0b0011. -/
def sh3 : Shadow := { curProgram := none, activeTexture := GL_TEXTURE0, attrMask := 3 }

/-- Input-layout fixture with semantics mask 0b0110 and no entries. -/
def layout6 : GLRInputLayout := { semanticsMask := 6, entries := [] }

/-- Capability fixture: the cross-vendor copy extension present. -/
def capsARB : GLCaps := { ARB_copy_image := true, NV_copy_image := false }

/-- Destination framebuffer fixture with handles distinct from fb200. -/
def fbB : GLRFramebuffer :=
  { width := 64, height := 64,
    color := { target := GL_TEXTURE_2D, texture := 11 },
    depth := { target := GL_TEXTURE_2D, texture := 12 } }

/-- Second destination framebuffer fixture, distinct from fbB. -/
def fbB2 : GLRFramebuffer :=
  { width := 32, height := 32,
    color := { target := GL_TEXTURE_2D, texture := 21 },
    depth := { target := GL_TEXTURE_2D, texture := 22 } }

/-- Copy-region fixture. -/
def rect0 : GLRect2D := { x := 1, y := 2, w := 3, h := 4 }

/-- Copy-destination-position fixture. -/
def pos0 : GLOffset2D := { x := 5, y := 6 }

/-- Color-aspect copy step fixture with destination fbB. -/
def stepColorA : GLRStepCopy :=
  { src := fb200, dst := fbB, srcRect := rect0, dstPos := pos0,
    aspectMask := GL_COLOR_BUFFER_BIT }

/-- Color-aspect copy step fixture with destination fbB2. -/
def stepColorB : GLRStepCopy :=
  { src := fb200, dst := fbB2, srcRect := rect0, dstPos := pos0,
    aspectMask := GL_COLOR_BUFFER_BIT }

/-- Depth-aspect copy step fixture. -/
def stepDepth : GLRStepCopy :=
  { src := fb200, dst := fbB, srcRect := rect0, dstPos := pos0,
    aspectMask := GL_DEPTH_BUFFER_BIT }

/-- Pool invariant of the texture name allocator: the cached names are
distinct and below the fresh-name supply counter. -/
def PoolInv (s : NameAllocState) : Prop :=
  s.nameCache.Nodup ∧ ∀ x ∈ s.nameCache, x < s.nextName

theorem testBit_lt_seven {n i : Nat} (hn : n < 128) (h : n.testBit i = true) : i < 7 := by
  rcases Nat.lt_or_ge i 7 with hlt | hge
  · exact hlt
  · exfalso
    have h2 : (128 : Nat) ≤ 2 ^ i := by
      calc (128 : Nat) = 2 ^ 7 := by norm_num
        _ ≤ 2 ^ i := Nat.pow_le_pow_right (by norm_num) hge
    have hz := Nat.testBit_lt_two_pow (lt_of_lt_of_le hn h2)
    simp [hz] at h

theorem countDE_runCommand (rs : RunnerState) (sh : Shadow) (c : GLRRenderCommand) :
    ((runCommand rs sh c).2.countP isDrawElementsCall)
      = if isSingleInstanceIndexedDraw c then 1 else 0 := by
  cases c with
  | depth enabled write func =>
      cases enabled <;>
        simp [runCommand, isDrawElementsCall, isSingleInstanceIndexedDraw, List.countP_cons]
  | blend enabled funcColor funcAlpha srcColor dstColor srcAlpha dstAlpha mask =>
      cases enabled <;>
        simp [runCommand, isDrawElementsCall, isSingleInstanceIndexedDraw, List.countP_cons,
          List.countP_append]
  | clear clearMask clearColor clearStencil =>
      simp only [runCommand]
      split_ifs <;>
        simp_all [isDrawElementsCall, isSingleInstanceIndexedDraw, List.countP_cons,
          List.countP_append]
  | blendColor =>
      simp [runCommand, isDrawElementsCall, isSingleInstanceIndexedDraw, List.countP_cons]
  | viewport x y w h =>
      simp [runCommand, isDrawElementsCall, isSingleInstanceIndexedDraw, List.countP_cons]
  | scissor x y w h =>
      simp [runCommand, isDrawElementsCall, isSingleInstanceIndexedDraw, List.countP_cons]
  | uniform4F loc name count =>
      rcases count with _ | _ | _ | _ | _ | count <;>
        simp only [runCommand] <;>
        split_ifs <;>
        simp_all [isDrawElementsCall, isSingleInstanceIndexedDraw, List.countP_cons]
  | uniform4I loc name count =>
      rcases count with _ | _ | _ | _ | _ | count <;>
        simp only [runCommand] <;>
        split_ifs <;>
        simp_all [isDrawElementsCall, isSingleInstanceIndexedDraw, List.countP_cons]
  | uniformMatrix4 loc name =>
      simp only [runCommand]
      split_ifs <;>
        simp_all [isDrawElementsCall, isSingleInstanceIndexedDraw, List.countP_cons]
  | stencilFunc enabled func ref compareMask =>
      cases enabled <;>
        simp [runCommand, isDrawElementsCall, isSingleInstanceIndexedDraw, List.countP_cons]
  | stencilOp sFail zFail pass writeMask =>
      simp [runCommand, isDrawElementsCall, isSingleInstanceIndexedDraw, List.countP_cons]
  | bindTexture slot texture =>
      by_cases h : slot = sh.activeTexture <;>
        cases texture <;>
        simp [runCommand, h, isDrawElementsCall, isSingleInstanceIndexedDraw,
          List.countP_cons, List.countP_append]
  | bindProgram program =>
      simp [runCommand, isDrawElementsCall, isSingleInstanceIndexedDraw, List.countP_cons]
  | bindInputLayout layout offset =>
      simp only [runCommand, isSingleInstanceIndexedDraw, if_neg Bool.false_ne_true,
        Bool.false_eq_true, if_false]
      rw [List.countP_append]
      rw [List.countP_eq_zero.2, List.countP_eq_zero.2]
      · intro e he
        simp only [List.mem_map] at he
        obtain ⟨x, _, rfl⟩ := he
        simp [isDrawElementsCall]
      · intro e he
        simp only [List.mem_flatMap, List.mem_range, List.mem_append,
          List.mem_ite_nil_right, List.mem_singleton] at he
        obtain ⟨j, _, (⟨_, rfl⟩ | ⟨_, rfl⟩)⟩ := he <;> simp [isDrawElementsCall]
  | bindVertexBuffer buffer =>
      simp [runCommand, isDrawElementsCall, isSingleInstanceIndexedDraw, List.countP_cons]
  | bindIndexBuffer buffer =>
      simp [runCommand, isDrawElementsCall, isSingleInstanceIndexedDraw, List.countP_cons]
  | genMips =>
      simp [runCommand, isDrawElementsCall, isSingleInstanceIndexedDraw, List.countP_cons]
  | draw mode first count =>
      simp [runCommand, isDrawElementsCall, isSingleInstanceIndexedDraw, List.countP_cons]
  | drawIndexed mode count indexType indices instances =>
      by_cases h : instances = 1 <;>
        simp [runCommand, h, isDrawElementsCall, isSingleInstanceIndexedDraw, List.countP_cons]
  | textureSampler wrapS wrapT magFilter minFilter anisotropy =>
      simp only [runCommand]
      split_ifs <;>
        simp_all [isDrawElementsCall, isSingleInstanceIndexedDraw, List.countP_cons,
          List.countP_append]
  | raster cullEnable frontFace cullFace ditherEnable =>
      cases cullEnable <;> cases ditherEnable <;>
        simp [runCommand, isDrawElementsCall, isSingleInstanceIndexedDraw, List.countP_cons,
          List.countP_append]

theorem countDE_runCommands (rs : RunnerState) (cs : List GLRRenderCommand) (sh : Shadow) :
    (runCommands rs sh cs).2.countP isDrawElementsCall
      = cs.countP isSingleInstanceIndexedDraw := by
  induction cs generalizing sh with
  | nil => simp [runCommands]
  | cons c cs ih =>
      simp only [runCommands, List.countP_cons, List.countP_append, ih,
        countDE_runCommand]
      split_ifs <;> omega

theorem countDE_passTail (sh : Shadow) : (passTail sh).countP isDrawElementsCall = 0 := by
  rw [List.countP_eq_zero]
  intro e he
  simp only [passTail, List.mem_append, List.mem_flatMap, List.mem_range,
    List.mem_ite_nil_right, List.mem_singleton, List.mem_cons, List.not_mem_nil,
    or_false] at he
  rcases he with (⟨j, hj, hbit, rfl⟩ | ⟨hne, rfl⟩) | rfl | rfl | rfl | rfl <;>
    simp [isDrawElementsCall]

theorem genNames_length (n d : Nat) : (genNames n d).length = n := by
  induction n generalizing d with
  | zero => rfl
  | succ n ih => simp [genNames, ih]

theorem mem_genNames (n d x : Nat) : x ∈ genNames n d ↔ d ≤ x ∧ x < d + n := by
  induction n generalizing d with
  | zero => simp [genNames]
  | succ n ih =>
      simp [genNames, ih]
      omega

theorem genNames_nodup (n d : Nat) : (genNames n d).Nodup := by
  induction n generalizing d with
  | zero => simp [genNames]
  | succ n ih =>
      simp only [genNames, List.nodup_cons]
      refine ⟨?_, ih (d + 1)⟩
      rw [mem_genNames]
      omega

theorem getLastD_genNames (n d : Nat) : (genNames (n + 1) d).getLast?.getD 0 = d + n := by
  induction n generalizing d with
  | zero => rfl
  | succ n ih =>
      show ((d :: genNames (n + 1) (d + 1)).getLast?).getD 0 = d + (n + 1)
      have h2 : (d :: genNames (n + 1) (d + 1)).getLast?
          = (genNames (n + 1) (d + 1)).getLast? := by
        show ((d :: (d + 1) :: genNames n (d + 2)).getLast?) = _
        rw [List.getLast?_cons_cons]
        rfl
      rw [h2, ih (d + 1)]
      omega

theorem alloc_nonempty (s : NameAllocState) (h : s.nameCache ≠ []) :
    (AllocTextureName s).2.genTextureCalls = s.genTextureCalls
  ∧ (AllocTextureName s).2.nameCache = s.nameCache.dropLast
  ∧ (AllocTextureName s).2.nextName = s.nextName
  ∧ (AllocTextureName s).1 ∈ s.nameCache := by
  have hni : s.nameCache.isEmpty = false := by
    simp [List.isEmpty_iff, h]
  refine ⟨?_, ?_, ?_, ?_⟩ <;>
    simp only [AllocTextureName, hni, Bool.false_eq_true, if_false]
  rw [List.getLast?_eq_getLast s.nameCache h]
  simp [List.getLast_mem]

theorem alloc_empty (s : NameAllocState) (h : s.nameCache = []) :
    (AllocTextureName s).2.genTextureCalls = s.genTextureCalls + 1
  ∧ (AllocTextureName s).2.nameCache = (genNames 16 s.nextName).dropLast
  ∧ (AllocTextureName s).2.nextName = s.nextName + 16
  ∧ (AllocTextureName s).1 = s.nextName + 15 := by
  have hni : s.nameCache.isEmpty = true := by simp [h]
  refine ⟨?_, ?_, ?_, ?_⟩ <;>
    simp only [AllocTextureName, hni, if_true, TEXCACHE_NAME_CACHE_SIZE]
  exact getLastD_genNames 15 s.nextName

theorem getLastD_not_mem_dropLast (l : List Nat) (hn : l.Nodup) (h : l ≠ []) :
    l.getLast?.getD 0 ∉ l.dropLast := by
  rw [List.getLast?_eq_getLast l h]
  simp only [Option.getD_some]
  intro hm
  have hd := List.dropLast_append_getLast h
  rw [← hd, List.nodup_append] at hn
  exact hn.2.2 hm (by simp)

theorem alloc_ret_nonempty (s : NameAllocState) (h : s.nameCache ≠ []) :
    (AllocTextureName s).1 = s.nameCache.getLast?.getD 0 := by
  have hni : s.nameCache.isEmpty = false := by simp [List.isEmpty_iff, h]
  simp only [AllocTextureName, hni, Bool.false_eq_true, if_false]

theorem PoolInv_step (s : NameAllocState) (hs : PoolInv s) :
    PoolInv (AllocTextureName s).2 := by
  by_cases h : s.nameCache = []
  · obtain ⟨-, h2, h3, -⟩ := alloc_empty s h
    constructor
    · rw [h2]
      exact (List.dropLast_sublist _).nodup (genNames_nodup 16 s.nextName)
    · intro x hx
      rw [h2] at hx
      have hx2 := (List.dropLast_sublist _).mem hx
      rw [mem_genNames] at hx2
      omega
  · obtain ⟨-, h2, h3, -⟩ := alloc_nonempty s h
    constructor
    · rw [h2]
      exact (List.dropLast_sublist _).nodup hs.1
    · intro x hx
      rw [h2] at hx
      rw [h3]
      exact hs.2 x ((List.dropLast_sublist _).mem hx)

theorem fresh_step (s : NameAllocState) (hs : PoolInv s) :
    (AllocTextureName s).1 < (AllocTextureName s).2.nextName
  ∧ (AllocTextureName s).1 ∉ (AllocTextureName s).2.nameCache := by
  by_cases h : s.nameCache = []
  · obtain ⟨-, h2, h3, h4⟩ := alloc_empty s h
    constructor
    · omega
    · rw [h2]
      have hne : genNames 16 s.nextName ≠ [] := by
        intro hcon
        have hlen := genNames_length 16 s.nextName
        rw [hcon] at hlen
        simp at hlen
      have hnm := getLastD_not_mem_dropLast (genNames 16 s.nextName)
        (genNames_nodup 16 s.nextName) hne
      rw [show (genNames 16 s.nextName).getLast?.getD 0 = s.nextName + 15 from
        getLastD_genNames 15 s.nextName] at hnm
      rw [h4]
      exact hnm
  · obtain ⟨-, h2, h3, h4⟩ := alloc_nonempty s h
    have hr := alloc_ret_nonempty s h
    constructor
    · rw [h3, hr]
      have hm : s.nameCache.getLast?.getD 0 ∈ s.nameCache := by
        rw [List.getLast?_eq_getLast s.nameCache h]
        simp [List.getLast_mem]
      exact hs.2 _ hm
    · rw [h2, hr]
      exact getLastD_not_mem_dropLast s.nameCache hs.1 h

theorem nextName_mono (s : NameAllocState) :
    s.nextName ≤ (AllocTextureName s).2.nextName := by
  by_cases h : s.nameCache = []
  · obtain ⟨-, -, h3, -⟩ := alloc_empty s h
    omega
  · obtain ⟨-, -, h3, -⟩ := alloc_nonempty s h
    omega

theorem allocMany_mem (n : Nat) (s : NameAllocState) (y : Nat)
    (hy : y ∈ (allocMany n s).1) : y ∈ s.nameCache ∨ s.nextName ≤ y := by
  induction n generalizing s with
  | zero => simp [allocMany] at hy
  | succ n ih =>
      simp only [allocMany, List.mem_cons] at hy
      rcases hy with rfl | hy
      · by_cases h : s.nameCache = []
        · obtain ⟨-, -, -, h4⟩ := alloc_empty s h
          omega
        · obtain ⟨-, -, -, h4⟩ := alloc_nonempty s h
          exact Or.inl h4
      · rcases ih (AllocTextureName s).2 hy with hc | hge
        · by_cases h : s.nameCache = []
          · obtain ⟨-, h2, h3, -⟩ := alloc_empty s h
            rw [h2] at hc
            have hc2 := (List.dropLast_sublist _).mem hc
            rw [mem_genNames] at hc2
            omega
          · obtain ⟨-, h2, h3, -⟩ := alloc_nonempty s h
            rw [h2] at hc
            exact Or.inl ((List.dropLast_sublist _).mem hc)
        · have hmono := nextName_mono s
          omega

theorem allocMany_nodup (n : Nat) (s : NameAllocState) (hs : PoolInv s) :
    (allocMany n s).1.Nodup := by
  induction n generalizing s with
  | zero => simp [allocMany]
  | succ n ih =>
      simp only [allocMany, List.nodup_cons]
      refine ⟨?_, ih (AllocTextureName s).2 (PoolInv_step s hs)⟩
      intro hmem
      obtain ⟨hlt, hnm⟩ := fresh_step s hs
      rcases allocMany_mem n (AllocTextureName s).2 _ hmem with hc | hge
      · exact hnm hc
      · omega

theorem allocMany_no_refill (n : Nat) (s : NameAllocState)
    (h : n ≤ s.nameCache.length) :
    (allocMany n s).2.genTextureCalls = s.genTextureCalls
  ∧ (allocMany n s).2.nameCache.length = s.nameCache.length - n := by
  induction n generalizing s with
  | zero => simp [allocMany]
  | succ n ih =>
      have hne : s.nameCache ≠ [] := by
        intro hcon
        rw [hcon] at h
        simp at h
      obtain ⟨h1, h2, h3, -⟩ := alloc_nonempty s hne
      have hlen : (AllocTextureName s).2.nameCache.length = s.nameCache.length - 1 := by
        rw [h2, List.length_dropLast]
      have hrec := ih (AllocTextureName s).2 (by omega)
      simp only [allocMany]
      constructor
      · rw [hrec.1, h1]
      · rw [hrec.2, hlen]
        omega

theorem allocMany_add (m n : Nat) (s : NameAllocState) :
    allocMany (m + n) s
      = ((allocMany m s).1 ++ (allocMany n (allocMany m s).2).1,
         (allocMany n (allocMany m s).2).2) := by
  induction m generalizing s with
  | zero => simp [allocMany, Nat.zero_add]
  | succ m ih =>
      have he : m + 1 + n = m + n + 1 := by omega
      rw [he]
      simp only [allocMany, ih]
      rfl

/-- C1: evaluation at the failing batch. A shader whose compile fails is
nevertheless left with its validity flag true, because the unconditional
write on source line 148 overwrites the false written by the failure branch
on line 146; a shader whose compile succeeds also ends valid, and the batch
runs to completion (both compile calls are issued, so the failing step did
not abort the batch). The claim requires the failed shader to end invalid,
which this evaluation refutes. -/
theorem C1_shader_validity_code_bug :
    (((RunInitSteps initState0 initBatch1).1).shaders 0).valid = true
  ∧ (((RunInitSteps initState0 initBatch1).1).shaders 1).valid = true
  ∧ ((RunInitSteps initState0 initBatch1).2.countP isCompileCall = 2) := by
  decide

/-- C2: the flip condition can never deactivate. PerformRenderPass never
writes curFramebuffer (first conjunct), so from the startup state
(curFramebuffer null) the viewport and scissor Y flip applies to every pass:
the default-target pass issues device Y = 140 as the claim says, but the
offscreen-target pass of height 200 also issues Y = 140 instead of passing
Y = 10 through unchanged. -/
theorem C2_viewport_flip_code_bug :
    (∀ (rs : RunnerState) (step : GLRStepRender),
      ((PerformRenderPass rs step).1).curFramebuffer = rs.curFramebuffer)
  ∧ ((PerformRenderPass rs0 vpPassDefault).2.countP (isViewportCall 0 140 100 50) = 1)
  ∧ ((PerformRenderPass rs0 vpPassOffscreen).2.countP (isViewportCall 0 140 100 50) = 1)
  ∧ ((PerformRenderPass rs0 vpPassOffscreen).2.countP (isViewportCall 0 10 100 50) = 0)
  ∧ ((PerformRenderPass rs0 scPassOffscreen).2.countP (isScissorCall 0 140 100 50) = 1) := by
  refine ⟨?_, ?_, ?_, ?_, ?_⟩
  · intro rs step
    unfold PerformRenderPass PerformBindFramebufferAsRenderTarget
    split
    · rfl
    · cases step.framebuffer <;> rfl
  · decide
  · decide
  · decide
  · decide

/-- C3 counterexample: the first BindTexture of a pass requests slot 0, which
equals the claim's stated starting slot, so the claim predicts no
active-texture call; the code issues one, because the shadow variable starts
at the raw enum GL_TEXTURE0 rather than 0. -/
theorem C3_first_bind_slot0_counterexample :
    ¬ ((runCommand rs0 initialShadow
        (GLRRenderCommand.bindTexture 0 (some tex0))).2.countP isActiveTextureCall = 0) := by
  decide

/-- C3 amended: a BindTexture command issues an active-texture call iff the
requested slot differs from the shadow variable's current value, always
updates the shadow variable to the slot, and always issues exactly one bind
call, binding handle zero when the command carries no texture; the shadow
variable starts each pass at GL_TEXTURE0 = 33984 rather than slot 0, so the
first BindTexture of a pass always issues an active-texture call. -/
theorem C3_bind_texture_amended (rs : RunnerState) (sh : Shadow) (slot : Int)
    (tex : Option GLRTexture) :
    ((runCommand rs sh (.bindTexture slot tex)).2.countP isActiveTextureCall
      = if slot = sh.activeTexture then 0 else 1)
  ∧ ((runCommand rs sh (.bindTexture slot tex)).2.countP isBindTextureCall = 1)
  ∧ ((runCommand rs sh (.bindTexture slot tex)).1.activeTexture = slot)
  ∧ ((runCommand rs sh (.bindTexture slot none)).2.getLast?
      = some (.bindTexture GL_TEXTURE_2D 0))
  ∧ initialShadow.activeTexture = GL_TEXTURE0 ∧ GL_TEXTURE0 = 33984 := by
  refine ⟨?_, ?_, ?_, ?_, rfl, rfl⟩
  · by_cases h : slot = sh.activeTexture <;>
      cases tex <;>
      simp [runCommand, h, isActiveTextureCall, List.countP_append, List.countP_cons]
  · by_cases h : slot = sh.activeTexture <;>
      cases tex <;>
      simp [runCommand, h, isBindTextureCall, List.countP_append, List.countP_cons]
  · by_cases h : slot = sh.activeTexture <;>
      simp [runCommand, h]
  · by_cases h : slot = sh.activeTexture <;>
      simp [runCommand, h, List.getLast?_concat]

/-- C4: for a depth-aspect Copy step, every region-copy call the interpreter
issues takes its destination texture handle from the step's source
framebuffer record (source line 507 reads src->depth), and with the
cross-vendor capability present exactly one call is issued. -/
theorem C4_depth_copy_dst_from_source (caps : GLCaps) (step : GLRStepCopy)
    (h : step.aspectMask = GL_DEPTH_BUFFER_BIT) :
    (∀ e ∈ PerformCopy caps step, dstNameOfCall e = some step.src.depth.texture)
  ∧ (caps.ARB_copy_image = true → (PerformCopy caps step).length = 1) := by
  constructor
  · intro e he
    unfold PerformCopy at he
    rw [h] at he
    simp only [show GL_DEPTH_BUFFER_BIT ≠ GL_COLOR_BUFFER_BIT by decide, if_neg, if_pos] at he
    split at he <;> [skip; split at he] <;> simp_all [dstNameOfCall]
  · intro hc
    simp [PerformCopy, hc]

/-- C4 witness: a concrete depth-aspect step whose destination record holds a
different depth handle than its source record; the issued call still carries
the source's handle. -/
theorem C4_depth_copy_dst_from_source_witness :
    stepDepth.dst.depth.texture ≠ stepDepth.src.depth.texture
  ∧ (∀ e ∈ PerformCopy capsARB stepDepth, dstNameOfCall e = some stepDepth.src.depth.texture)
  ∧ (PerformCopy capsARB stepDepth).length = 1 :=
  ⟨by decide, (C4_depth_copy_dst_from_source capsARB stepDepth rfl).1,
   (C4_depth_copy_dst_from_source capsARB stepDepth rfl).2 rfl⟩

/-- C5: binding an input layout enables exactly the slots set in the new mask
and clear in the old shadow mask, disables exactly the slots clear in the new
mask and set in the old, and leaves the shadow mask equal to the new mask.
The masks are 7-bit (SEM_MAX slots). -/
theorem C5_input_layout_mask_diff (rs : RunnerState) (sh : Shadow)
    (layout : GLRInputLayout) (offset : Nat) (i : Nat)
    (hM : sh.attrMask < 128) (hN : layout.semanticsMask < 128) :
    (GLCall.enableVertexAttribArray i ∈
        (runCommand rs sh (.bindInputLayout layout offset)).2
      ↔ (layout.semanticsMask.testBit i ∧ ¬ sh.attrMask.testBit i))
  ∧ (GLCall.disableVertexAttribArray i ∈
        (runCommand rs sh (.bindInputLayout layout offset)).2
      ↔ (sh.attrMask.testBit i ∧ ¬ layout.semanticsMask.testBit i))
  ∧ (runCommand rs sh (.bindInputLayout layout offset)).1.attrMask
      = layout.semanticsMask := by
  refine ⟨?_, ?_, rfl⟩
  · simp [runCommand, List.mem_flatMap, List.mem_ite_nil_right, Nat.testBit_ldiff]
    intro h1 _
    exact testBit_lt_seven hN h1
  · simp [runCommand, List.mem_flatMap, List.mem_ite_nil_right, Nat.testBit_ldiff]
    intro h1 _
    exact testBit_lt_seven hM h1

/-- C5 witness: switching from mask 0b0011 to mask 0b0110 at slot 2: slot 2
is enabled (set in the new mask, clear in the old), and the shadow mask ends
equal to the new mask. -/
theorem C5_input_layout_mask_diff_witness :
    sh3.attrMask < 128 ∧ layout6.semanticsMask < 128
  ∧ ((GLCall.enableVertexAttribArray 2 ∈
        (runCommand rs0 sh3 (.bindInputLayout layout6 0)).2
      ↔ (layout6.semanticsMask.testBit 2 ∧ ¬ sh3.attrMask.testBit 2))
    ∧ (GLCall.disableVertexAttribArray 2 ∈
        (runCommand rs0 sh3 (.bindInputLayout layout6 0)).2
      ↔ (sh3.attrMask.testBit 2 ∧ ¬ layout6.semanticsMask.testBit 2))
    ∧ (runCommand rs0 sh3 (.bindInputLayout layout6 0)).1.attrMask
        = layout6.semanticsMask) :=
  ⟨by decide, by decide,
   C5_input_layout_mask_diff rs0 sh3 layout6 0 2 (by decide) (by decide)⟩

/-- C6: a render pass whose command list is empty returns before any device
call: the trace is empty and the interpreter state (including the current
framebuffer dimensions) is returned unchanged. -/
theorem C6_empty_pass_noop (rs : RunnerState) (step : GLRStepRender)
    (h : step.commands = []) : PerformRenderPass rs step = (rs, []) := by
  simp [PerformRenderPass, h]

/-- C6 witness: the empty pass fixture evaluates to the unchanged state and
the empty trace. -/
theorem C6_empty_pass_noop_witness :
    emptyPass.commands = [] ∧ PerformRenderPass rs0 emptyPass = (rs0, []) :=
  ⟨rfl, C6_empty_pass_noop rs0 emptyPass rfl⟩

/-- C7: a BufferSubData init step issues the upload call exactly once, frees
the CPU-side payload exactly once iff the ownership flag is set, and no
prefix of the trace contains the free without already containing the
upload (the payload is never freed before the upload call). -/
theorem C7_buffer_subdata_ownership (s : InitState) (bufId offset size : Nat)
    (flag : Bool) (n : Nat) :
    ((runInitStep s (.bufferSubdata bufId offset size flag)).2.countP isBufferSubDataCall = 1)
  ∧ ((runInitStep s (.bufferSubdata bufId offset size flag)).2.countP isFreePayloadCall
      = (if flag then 1 else 0))
  ∧ (0 < (((runInitStep s (.bufferSubdata bufId offset size flag)).2.take n).countP
        isFreePayloadCall) →
     0 < (((runInitStep s (.bufferSubdata bufId offset size flag)).2.take n).countP
        isBufferSubDataCall)) := by
  refine ⟨?_, ?_, ?_⟩
  · cases flag <;> simp [runInitStep, isBufferSubDataCall, List.countP_append, List.countP_cons]
  · cases flag <;> simp [runInitStep, isFreePayloadCall, List.countP_append, List.countP_cons]
  · cases flag <;>
      rcases n with _ | _ | _ | n <;>
      simp [runInitStep, isFreePayloadCall, isBufferSubDataCall, List.countP_cons, List.take]

/-- C7 witness: with the ownership flag set, the trace has one upload call,
and the three-call prefix that contains the free already contains the
upload. -/
theorem C7_buffer_subdata_ownership_witness :
    ((runInitStep initState0 (.bufferSubdata 0 4 8 true)).2.countP isBufferSubDataCall = 1)
  ∧ (0 < (((runInitStep initState0 (.bufferSubdata 0 4 8 true)).2.take 3).countP
      isBufferSubDataCall)) :=
  ⟨(C7_buffer_subdata_ownership initState0 0 4 8 true 3).1,
   (C7_buffer_subdata_ownership initState0 0 4 8 true 3).2.2 (by decide)⟩

/-- C8: over any render pass, the number of indexed-draw device calls in the
trace equals the number of indexed-draw commands whose requested instance
count is 1; commands with any other instance count issue nothing. -/
theorem C8_indexed_draw_instances (rs : RunnerState) (step : GLRStepRender) :
    (PerformRenderPass rs step).2.countP isDrawElementsCall
      = step.commands.countP isSingleInstanceIndexedDraw := by
  unfold PerformRenderPass
  split
  · next h =>
      rw [List.isEmpty_iff] at h
      simp [h]
  · simp [List.countP_append, countDE_runCommands, countDE_passTail, isDrawElementsCall,
      List.countP_cons]

/-- C9: the texture name allocator. An allocation against an empty pool
issues exactly one batch request of 16 fresh handles, returns one of them and
leaves 15 pooled; 17 consecutive allocations from an empty pool issue exactly
two batch requests; and any continuous allocation sequence from an empty pool
returns pairwise distinct handles (the device model supplies distinct fresh
names). -/
theorem C9_alloc_texture_name (d g n : Nat) :
    ((AllocTextureName ⟨[], d, g⟩).2.genTextureCalls = g + 1
     ∧ (AllocTextureName ⟨[], d, g⟩).1 ∈ genNames 16 d
     ∧ (AllocTextureName ⟨[], d, g⟩).2.nameCache.length = 15)
  ∧ (allocMany 17 ⟨[], d, 0⟩).2.genTextureCalls = 2
  ∧ (allocMany n ⟨[], d, 0⟩).1.Nodup := by
  refine ⟨⟨?_, ?_, ?_⟩, ?_, ?_⟩
  · exact (alloc_empty ⟨[], d, g⟩ rfl).1
  · rw [(alloc_empty ⟨[], d, g⟩ rfl).2.2.2, mem_genNames]
    show d ≤ d + 15 ∧ d + 15 < d + 16
    omega
  · rw [(alloc_empty ⟨[], d, g⟩ rfl).2.1, List.length_dropLast, genNames_length]
  · have h1 := alloc_empty ⟨[], d, 0⟩ rfl
    have hlen1 : (AllocTextureName ⟨[], d, 0⟩).2.nameCache.length = 15 := by
      rw [h1.2.1, List.length_dropLast, genNames_length]
    have h15 := allocMany_no_refill 15 (AllocTextureName ⟨[], d, 0⟩).2 (by rw [hlen1])
    have hc0 : (allocMany 15 (AllocTextureName ⟨[], d, 0⟩).2).2.nameCache.length = 0 := by
      rw [h15.2, hlen1]
    have hcache0 := List.length_eq_zero.1 hc0
    have h2 := alloc_empty _ hcache0
    have ha : (allocMany 17 (⟨[], d, 0⟩ : NameAllocState)).2
        = (allocMany 1 (allocMany 15 (allocMany 1 ⟨[], d, 0⟩).2).2).2 := by
      rw [show (17 : Nat) = 1 + (15 + 1) from rfl, allocMany_add 1 (15 + 1),
        allocMany_add 15 1]
    have e1 : (allocMany 1 (⟨[], d, 0⟩ : NameAllocState)).2
        = (AllocTextureName ⟨[], d, 0⟩).2 := rfl
    have e2 : (allocMany 1 (allocMany 15 (AllocTextureName ⟨[], d, 0⟩).2).2).2
        = (AllocTextureName (allocMany 15 (AllocTextureName ⟨[], d, 0⟩).2).2).2 := rfl
    rw [ha, e1, e2, h2.1, h15.1, h1.1]
  · exact allocMany_nodup n ⟨[], d, 0⟩ ⟨List.nodup_nil, by simp⟩

/-- C10: for every Copy step, the destination resource record is never read:
the trace is unchanged under any replacement of the step's dst field, and
for each recognized aspect the issued destination handle comes from the
source framebuffer record. -/
theorem C10_copy_dst_record_unread (caps : GLCaps) (src dst dst2 : GLRFramebuffer)
    (srcRect : GLRect2D) (dstPos : GLOffset2D) (aspectMask : Nat) :
    (PerformCopy caps
        { src := src, dst := dst, srcRect := srcRect, dstPos := dstPos,
          aspectMask := aspectMask }
      = PerformCopy caps
        { src := src, dst := dst2, srcRect := srcRect, dstPos := dstPos,
          aspectMask := aspectMask })
  ∧ (aspectMask = GL_COLOR_BUFFER_BIT →
      ∀ e ∈ PerformCopy caps
        { src := src, dst := dst, srcRect := srcRect, dstPos := dstPos,
          aspectMask := aspectMask },
      dstNameOfCall e = some src.color.texture)
  ∧ (aspectMask = GL_DEPTH_BUFFER_BIT →
      ∀ e ∈ PerformCopy caps
        { src := src, dst := dst, srcRect := srcRect, dstPos := dstPos,
          aspectMask := aspectMask },
      dstNameOfCall e = some src.depth.texture) := by
  refine ⟨rfl, ?_, ?_⟩
  · intro h e he
    subst h
    obtain ⟨arb, nv⟩ := caps
    unfold PerformCopy at he
    cases arb <;> cases nv <;>
      simp_all [dstNameOfCall, GL_COLOR_BUFFER_BIT, GL_DEPTH_BUFFER_BIT]
  · intro h e he
    subst h
    obtain ⟨arb, nv⟩ := caps
    unfold PerformCopy at he
    cases arb <;> cases nv <;>
      simp_all [dstNameOfCall, GL_COLOR_BUFFER_BIT, GL_DEPTH_BUFFER_BIT]

/-- C10 witness: two concrete color-aspect steps differing only in their
destination record produce identical traces, and the issued destination
handle is the source framebuffer's color attachment. -/
theorem C10_copy_dst_record_unread_witness :
    (PerformCopy capsARB stepColorA = PerformCopy capsARB stepColorB)
  ∧ (∀ e ∈ PerformCopy capsARB stepColorA, dstNameOfCall e = some fb200.color.texture) :=
  ⟨(C10_copy_dst_record_unread capsARB fb200 fbB fbB2 rect0 pos0 GL_COLOR_BUFFER_BIT).1,
   (C10_copy_dst_record_unread capsARB fb200 fbB fbB2 rect0 pos0 GL_COLOR_BUFFER_BIT).2.1 rfl⟩
